import Mathlib

/-!
Shallow embedding of the hypridle-manager daemon (src/hypridle-manager.py)
and the lid handler (src/hyprland-lid-manager.py), with theorems checking
the specification's claims about power-state probing, config rendering,
and the state-transition controller.
-/

set_option maxRecDepth 4000

/-- Decidable equality for `Except`, used to evaluate outcomes of the
fallible operations in the embedding. -/
instance {ε α : Type} [DecidableEq ε] [DecidableEq α] : DecidableEq (Except ε α) := fun a b =>
  match a, b with
  | .error x, .error y =>
    if h : x = y then .isTrue (by rw [h]) else .isFalse (by intro hh; cases hh; exact h rfl)
  | .ok x, .ok y =>
    if h : x = y then .isTrue (by rw [h]) else .isFalse (by intro hh; cases hh; exact h rfl)
  | .error _, .ok _ => .isFalse (by intro hh; cases hh)
  | .ok _, .error _ => .isFalse (by intro hh; cases hh)

/-- Python `int(str)`: strip surrounding whitespace, optional sign, then a
nonempty run of decimal digits; anything else raises `ValueError`
(modelled as `none`). -/
def parsePyInt (s : String) : Option Int :=
  let cs := ((s.data.dropWhile Char.isWhitespace).reverse.dropWhile Char.isWhitespace).reverse
  let digits : List Char → Option Int := fun ds =>
    if !ds.isEmpty && ds.all Char.isDigit then
      some (Int.ofNat (ds.foldl (fun a c => a * 10 + (c.toNat - 48)) 0))
    else none
  match cs with
  | '-' :: rest => (digits rest).map (fun n => -n)
  | '+' :: rest => digits rest
  | _ => digits cs

/-- The loaded settings file: a list of (section, key, value) triples, as
produced by `configparser` reading the ini file. -/
structure IniConfig where
  entries : List (String × String × String)
deriving DecidableEq

/-- Raw lookup of a key in a section (no interpolation), the observable
content of a parsed settings file. -/
def IniConfig.get? (c : IniConfig) (sec key : String) : Option String :=
  (c.entries.find? (fun e => e.1 == sec && e.2.1 == key)).map (fun e => e.2.2)

/-- `config.get(sec, key, fallback=fb)` with interpolation disabled:
returns the raw value, or the fallback when the section/option is missing. -/
def IniConfig.getD (c : IniConfig) (sec key fb : String) : String :=
  (c.get? sec key).getD fb

/-- `config.get(sec, key)` without a fallback: a missing section/option
raises (`NoSectionError`/`NoOptionError`), modelled as `Except.error`. -/
def IniConfig.getE (c : IniConfig) (sec key : String) : Except Unit String :=
  match c.get? sec key with
  | some v => .ok v
  | none => .error ()

/-- `config.getint(sec, key, fallback=fb)`: the fallback covers a missing
section/option only; a present but unparseable value raises `ValueError`,
modelled as `Except.error`. -/
def IniConfig.getintE (c : IniConfig) (sec key : String) (fb : Int) : Except Unit Int :=
  match c.get? sec key with
  | none => .ok fb
  | some v =>
    match parsePyInt v with
    | some n => .ok n
    | none => .error ()

/-- The battery sensor reading from `psutil.sensors_battery()` when a
battery is present. -/
structure Battery where
  power_plugged : Bool
  percent : Int
deriving DecidableEq

/-- `get_power_status` (src/hypridle-manager.py lines 32-49). The sensor
read itself may raise at the OS level, which the source does not catch, so
the argument is the outcome of `psutil.sensors_battery()`: an error, no
battery, or a battery reading. A malformed `low_battery_percentage` makes
`config.getint` raise, which is likewise uncaught. -/
def get_power_status (sensor : Except Unit (Option Battery)) (config : IniConfig) :
    Except Unit String :=
  match sensor with
  | .error e => .error e
  | .ok none => .ok "on_ac"
  | .ok (some battery) =>
    if battery.power_plugged then .ok "on_ac"
    else
      match config.getintE "general" "low_battery_percentage" 20 with
      | .error e => .error e
      | .ok low_battery_percentage =>
        if battery.percent ≤ low_battery_percentage then .ok "low_battery"
        else .ok "on_battery"

/-- The unconditional `general` block of the rendered hypridle config
(lines 63-69 of the source f-string). -/
def generalBlock (lock_command dpms_on_command : String) : String :=
  "\ngeneral \x7b\n    lock_cmd = pidof " ++ lock_command ++ " || " ++ lock_command ++
    "\n    before_sleep_cmd = loginctl lock-session\n    after_sleep_cmd = " ++
    dpms_on_command ++ "\n\x7d\n"

/-- The dim listener block (source lines 75-84): timeout, on-timeout, and
an on-resume line only when the resume command is nonempty. No trailing
newline, matching the source exactly. -/
def dimBlockText (dim_timeout : Int) (dim_command dim_resume_command : String) : String :=
  "\n\nlistener \x7b\n    timeout = " ++ toString dim_timeout ++
    "\n    on-timeout = " ++ dim_command ++
    (if dim_resume_command ≠ "" then "\n    on-resume = " ++ dim_resume_command else "") ++
    "\n\x7d"

/-- The lock listener block (source lines 88-94). -/
def lockBlockText (lock_timeout : Int) (lock_command : String) : String :=
  "\n\nlistener \x7b\n    timeout = " ++ toString lock_timeout ++
    "\n    on-timeout = " ++ lock_command ++ "\n\x7d\n"

/-- The DPMS-off listener block (source lines 99-106). -/
def dpmsBlockText (dpms_off_timeout : Int) (dpms_off_command dpms_on_command : String) : String :=
  "\n\nlistener \x7b\n    timeout = " ++ toString dpms_off_timeout ++
    "\n    on-timeout = " ++ dpms_off_command ++
    "\n    on-resume = " ++ dpms_on_command ++ "\n\x7d\n"

/-- The suspend listener block (source lines 111-117). -/
def suspendBlockText (suspend_timeout : Int) (suspend_command : String) : String :=
  "\n\nlistener \x7b\n    timeout = " ++ toString suspend_timeout ++
    "\n    on-timeout = " ++ suspend_command ++ "\n\x7d\n"

/-- Source lines 72-84: when `dim_timeout > 0`, fetch `dim_command` with no
fallback (missing key raises) and append the dim block. -/
def dimPart (power_state : String) (config : IniConfig) (dim_timeout : Int) :
    Except Unit String :=
  if 0 < dim_timeout then
    match config.getE power_state "dim_command" with
    | .error e => .error e
    | .ok dim_command =>
      .ok (dimBlockText dim_timeout dim_command (config.getD power_state "dim_resume_command" ""))
  else .ok ""

/-- Source lines 97-106: when `dpms_off_timeout > 0`, fetch
`dpms_off_command` with no fallback and append the DPMS block. -/
def dpmsPart (power_state : String) (config : IniConfig) (dpms_on_command : String)
    (dpms_off_timeout : Int) : Except Unit String :=
  if 0 < dpms_off_timeout then
    match config.getE power_state "dpms_off_command" with
    | .error e => .error e
    | .ok dpms_off_command => .ok (dpmsBlockText dpms_off_timeout dpms_off_command dpms_on_command)
  else .ok ""

/-- Source lines 109-117: when `suspend_timeout > 0`, fetch
`suspend_command` with no fallback and append the suspend block. -/
def suspendPart (power_state : String) (config : IniConfig) (suspend_timeout : Int) :
    Except Unit String :=
  if 0 < suspend_timeout then
    match config.getE power_state "suspend_command" with
    | .error e => .error e
    | .ok suspend_command => .ok (suspendBlockText suspend_timeout suspend_command)
  else .ok ""

/-- `generate_hypridle_config` (source lines 51-118), with the fallible
`getint`/`get` reads performed in exactly the source's order, each
uncaught exception propagating to the caller. -/
def generate_hypridle_config (power_state : String) (config : IniConfig) :
    Except Unit String :=
  let lock_command := config.getD "general" "lock_command" "hyprlock"
  let dpms_on_command := config.getD power_state "dpms_on_command" "hyprctl dispatch dpms on"
  match config.getintE power_state "dim_timeout" 0 with
  | .error e => .error e
  | .ok dim_timeout =>
    match dimPart power_state config dim_timeout with
    | .error e => .error e
    | .ok dimText =>
      match config.getintE power_state "lock_timeout" 0 with
      | .error e => .error e
      | .ok lock_timeout =>
        let lockText := if 0 < lock_timeout then lockBlockText lock_timeout lock_command else ""
        match config.getintE power_state "dpms_off_timeout" 0 with
        | .error e => .error e
        | .ok dpms_off_timeout =>
          match dpmsPart power_state config dpms_on_command dpms_off_timeout with
          | .error e => .error e
          | .ok dpmsText =>
            match config.getintE power_state "suspend_timeout" 0 with
            | .error e => .error e
            | .ok suspend_timeout =>
              match suspendPart power_state config suspend_timeout with
              | .error e => .error e
              | .ok suspendText =>
                .ok (generalBlock lock_command dpms_on_command ++
                  dimText ++ lockText ++ dpmsText ++ suspendText)

/-- Outcome of the `subprocess.run(["notify-send", ...], check=True)` call
inside `send_notification`: the command may succeed, exit non-zero
(`CalledProcessError`), or fail to spawn at all (`OSError`, e.g. the
binary is not installed). -/
inductive NotifyResult where
  | success
  | exitFailure
  | spawnFailure
deriving DecidableEq

/-- `send_notification` (source lines 21-30): the `try/except` catches
only `subprocess.CalledProcessError` (logged, swallowed); a spawn-level
`OSError` is not caught and propagates to the caller. -/
def send_notification (result : NotifyResult) : Except Unit Unit :=
  match result with
  | .success => .ok ()
  | .exitFailure => .ok ()
  | .spawnFailure => .error ()

/-- Observable outcome of one `handle_power_change` tick: the stored state
afterwards (`current_power_state[0]`), whether `send_notification` was
invoked, the config text written to disk if any, whether the consumer was
restarted, and whether an uncaught exception escaped the tick. -/
structure TickOutcome where
  last : Option String
  notified : Bool
  wrote : Option String
  restarted : Bool
  errored : Bool
deriving DecidableEq

/-- `handle_power_change` (source lines 156-182): probe; if the probed
state differs from the stored one, record the new state first, then
notify (when enabled), then render, write and restart. An exception from
the probe leaves the stored state untouched; an exception from notify or
render escapes after the state has already been updated, skipping the
write and the restart. -/
def handle_power_change (sensor : Except Unit (Option Battery)) (notify : NotifyResult)
    (config : IniConfig) (enable_notifications : Bool) (last : Option String) : TickOutcome :=
  match get_power_status sensor config with
  | .error _ => ⟨last, false, none, false, true⟩
  | .ok new_power_state =>
    if some new_power_state = last then ⟨last, false, none, false, false⟩
    else
      let updated := some new_power_state
      match (if enable_notifications then send_notification notify else .ok ()) with
      | .error _ => ⟨updated, enable_notifications, none, false, true⟩
      | .ok _ =>
        match generate_hypridle_config new_power_state config with
        | .error _ => ⟨updated, enable_notifications, none, false, true⟩
        | .ok text => ⟨updated, enable_notifications, some text, true, false⟩

/-- Number of restarts performed across a run of consecutive ticks, one
tick per sensor reading, threading the stored state through. -/
def restartCount (notify : NotifyResult) (config : IniConfig) (enable_notifications : Bool) :
    List (Except Unit (Option Battery)) → Option String → Nat
  | [], _ => 0
  | sensor :: rest, last =>
    let t := handle_power_change sensor notify config enable_notifications last
    (if t.restarted then 1 else 0) + restartCount notify config enable_notifications rest t.last

/-- One iteration of the daemon's main loop (source lines 244-250):
`while True: time.sleep(1)` — a keep-alive that performs no probe, no
write, and no restart. -/
def main_keepalive_iteration (last : Option String) : TickOutcome :=
  ⟨last, false, none, false, false⟩

/-- One udev event as handled by `monitor_power_events` (source lines
200-204): actions `change`, `add`, `remove` invoke `handle_power_change`
after a settling delay; other actions are ignored. -/
def monitor_event_step (action : String) (sensor : Except Unit (Option Battery))
    (notify : NotifyResult) (config : IniConfig) (enable_notifications : Bool)
    (last : Option String) : TickOutcome :=
  if action = "change" ∨ action = "add" ∨ action = "remove" then
    handle_power_change sensor notify config enable_notifications last
  else ⟨last, false, none, false, false⟩

/-- Length bound for `List.dropWhile`, used for termination of the
interpolation model below. -/
theorem dropWhile_length_le (p : Char → Bool) (l : List Char) :
    (l.dropWhile p).length ≤ l.length := by
  induction l with
  | nil => simp [List.dropWhile]
  | cons a t ih =>
    by_cases h : p a
    · simp [List.dropWhile, h]
      omega
    · simp [List.dropWhile, h]

/-- The `configparser.BasicInterpolation` value expansion that
`configparser.ConfigParser()` applies by default on every `get`: text
passes through; a doubled percent sign collapses to one; a percent sign
followed by a parenthesised key is replaced by the looked-up value,
itself expanded recursively up to the interpolation depth limit (`fuel`);
a percent sign followed by anything else raises
`InterpolationSyntaxError`; a reference to a missing key, or exceeding
the depth limit, also raises. -/
def basic_interpolate (lookup : String → Option String) :
    Nat → List Char → Except Unit (List Char)
  | _, [] => .ok []
  | fuel, '%' :: rest =>
    match rest with
    | '%' :: rest2 =>
      match basic_interpolate lookup fuel rest2 with
      | .error e => .error e
      | .ok t => .ok ('%' :: t)
    | '(' :: rest2 =>
      match h : rest2.dropWhile (· != ')') with
      | ')' :: rest3 =>
        match fuel, lookup (String.mk (rest2.takeWhile (· != ')'))) with
        | 0, _ => .error ()
        | _ + 1, none => .error ()
        | f + 1, some v =>
          match basic_interpolate lookup f v.data with
          | .error e => .error e
          | .ok ev =>
            match basic_interpolate lookup (f + 1) rest3 with
            | .error e => .error e
            | .ok t => .ok (ev ++ t)
      | _ => .error ()
    | _ => .error ()
  | fuel, c :: rest =>
    match basic_interpolate lookup fuel rest with
    | .error e => .error e
    | .ok t => .ok (c :: t)
termination_by fuel cs => (fuel, cs.length)
decreasing_by
  · apply Prod.Lex.right
    simp only [List.length_cons]
    omega
  · apply Prod.Lex.left
    omega
  · apply Prod.Lex.right
    have h2 := dropWhile_length_le (· != ')') rest2
    rw [h] at h2
    simp at h2 ⊢
    omega
  · apply Prod.Lex.right
    simp only [List.length_cons]
    omega

/-- Python `str.strip()`. -/
def pyStrip (s : String) : String :=
  String.mk (((s.data.dropWhile Char.isWhitespace).reverse.dropWhile Char.isWhitespace).reverse)

/-- `config.get(sec, key, fallback=fb)` as performed by the lid handler
(src/hyprland-lid-manager.py line 54): the parser is constructed without
disabling interpolation, so every fetched value goes through
`BasicInterpolation` (depth limit 10) before being returned; the fallback
applies only when the option is missing. -/
def lid_config_get (config : IniConfig) (sec key fb : String) : Except Unit String :=
  match config.get? sec key with
  | none => .ok fb
  | some v =>
    match basic_interpolate (fun k => config.get? sec k) 10 v.data with
    | .error e => .error e
    | .ok cs => .ok (String.mk cs)

/-- `get_lid_command` (src/hyprland-lid-manager.py lines 36-44): fetch
`lid_switch.<state>_command` with fallback `""`, return the stripped
command or `None` when blank. -/
def get_lid_command (power_state : String) (config : IniConfig) :
    Except Unit (Option String) :=
  match lid_config_get config "lid_switch" (power_state ++ "_command") "" with
  | .error e => .error e
  | .ok command => .ok (if pyStrip command ≠ "" then some (pyStrip command) else none)

/-- The spec's enumerated power states (spec §3). -/
inductive SpecPowerState where
  | OnAC
  | OnBattery
  | LowBattery
deriving DecidableEq

/-- The strings the source uses for each spec power state. -/
def SpecPowerState.toCode : SpecPowerState → String
  | .OnAC => "on_ac"
  | .OnBattery => "on_battery"
  | .LowBattery => "low_battery"

/-- Reference classification written from the spec's words (§3, §4.1): no
battery present means OnAC; plugged in means OnAC regardless of charge;
otherwise LowBattery when charge is at most the threshold, else
OnBattery. -/
def spec_classify (battery : Option Battery) (threshold : Int) : SpecPowerState :=
  match battery with
  | none => .OnAC
  | some b =>
    if b.power_plugged then .OnAC
    else if b.percent ≤ threshold then .LowBattery
    else .OnBattery

/-! ### Helper lemmas shared by the claim theorems -/

/-- On a successful sensor read with a parseable (or absent) threshold,
the probe computes exactly the spec's classification. -/
theorem probe_eq_spec_classify (b : Option Battery) (c : IniConfig) (t : Int)
    (ht : c.getintE "general" "low_battery_percentage" 20 = .ok t) :
    get_power_status (.ok b) c = .ok ((spec_classify b t).toCode) := by
  cases b with
  | none => rfl
  | some bat =>
    simp only [get_power_status, spec_classify, ht]
    cases hp : bat.power_plugged <;>
      by_cases hle : bat.percent ≤ t <;>
        simp [hp, hle, SpecPowerState.toCode]

/-- A tick that probes the state already stored is a no-op. -/
theorem handle_same (sensor : Except Unit (Option Battery)) (notify : NotifyResult)
    (c : IniConfig) (en : Bool) (s : String)
    (hs : get_power_status sensor c = .ok s) :
    handle_power_change sensor notify c en (some s) = ⟨some s, false, none, false, false⟩ := by
  simp [handle_power_change, hs]

/-- A tick that probes a state different from the stored one, with the
notification step not raising and the render succeeding, records the new
state, writes the rendered text and restarts. -/
theorem handle_change (sensor : Except Unit (Option Battery)) (notify : NotifyResult)
    (c : IniConfig) (en : Bool) (s txt : String) (last : Option String)
    (hs : get_power_status sensor c = .ok s)
    (hn : send_notification notify = .ok ())
    (hr : generate_hypridle_config s c = .ok txt)
    (hne : some s ≠ last) :
    handle_power_change sensor notify c en last = ⟨some s, en, some txt, true, false⟩ := by
  simp only [handle_power_change, hs]
  rw [if_neg hne]
  cases en <;> simp [hn, hr]

/-- A tick that probes a state different from the stored one but whose
render raises still records the new state (and invokes the notification
when enabled) before failing, with no write and no restart. -/
theorem handle_render_error (sensor : Except Unit (Option Battery)) (notify : NotifyResult)
    (c : IniConfig) (en : Bool) (s : String) (last : Option String)
    (hs : get_power_status sensor c = .ok s)
    (hn : send_notification notify = .ok ())
    (hre : generate_hypridle_config s c = .error ())
    (hne : some s ≠ last) :
    handle_power_change sensor notify c en last = ⟨some s, en, none, false, true⟩ := by
  simp only [handle_power_change, hs]
  rw [if_neg hne]
  cases en <;> simp [hn, hre]

/-- Consecutive ticks that keep probing the stored state never restart. -/
theorem restartCount_same (notify : NotifyResult) (c : IniConfig) (en : Bool) (s : String)
    (sensors : List (Except Unit (Option Battery)))
    (hall : ∀ x ∈ sensors, get_power_status x c = .ok s) :
    restartCount notify c en sensors (some s) = 0 := by
  induction sensors with
  | nil => rfl
  | cons x rest ih =>
    have hx : get_power_status x c = .ok s := hall x (List.mem_cons_self x rest)
    simp only [restartCount, handle_same x notify c en s hx]
    simpa using ih (fun y hy => hall y (List.mem_cons_of_mem x hy))

/-! ### Claim theorems -/

/-- C2: for every successful sensor reading and every settings input whose
`general.low_battery_percentage` is absent or parses (threshold `t`,
fallback 20), `get_power_status` returns exactly the spec's reference
classification: no battery yields on_ac; a plugged battery yields on_ac
regardless of percentage; otherwise percentage ≤ t yields low_battery and
percentage > t yields on_battery. -/
theorem c2_probe_matches_spec (b : Option Battery) (c : IniConfig) (t : Int)
    (ht : c.getintE "general" "low_battery_percentage" 20 = .ok t) :
    get_power_status (.ok b) c = .ok ((spec_classify b t).toCode) :=
  probe_eq_spec_classify b c t ht

/-- Witness for C2 at a concrete input: threshold 20, unplugged battery at
15 percent classifies as low_battery. -/
theorem c2_probe_witness :
    (IniConfig.mk [("general", "low_battery_percentage", "20")]).getintE
        "general" "low_battery_percentage" 20 = .ok 20 ∧
    get_power_status (.ok (some ⟨false, 15⟩))
        (IniConfig.mk [("general", "low_battery_percentage", "20")]) =
      .ok ((spec_classify (some ⟨false, 15⟩) 20).toCode) :=
  ⟨by decide, c2_probe_matches_spec (some ⟨false, 15⟩)
    (IniConfig.mk [("general", "low_battery_percentage", "20")]) 20 (by decide)⟩

/-- C5 counterexample: the probe has no error handling, so an OS-level
sensor read error propagates to the caller instead of degrading to on_ac,
and a malformed `low_battery_percentage` likewise raises. -/
theorem c5_counterexample :
    get_power_status (.error ()) (IniConfig.mk []) = .error () ∧
    get_power_status (.error ()) (IniConfig.mk []) ≠ .ok "on_ac" ∧
    get_power_status (.ok (some ⟨false, 50⟩))
        (IniConfig.mk [("general", "low_battery_percentage", "abc")]) = .error () := by
  decide

/-- C5 amended: when the sensor read succeeds and
`general.low_battery_percentage` is absent or parses as an integer, the
probe returns one of the three power states; but an OS-level read error
of the battery sensor always propagates as an exception to the caller —
there is no on_ac fallback. -/
theorem c5_probe_amended (b : Option Battery) (c : IniConfig) (t : Int)
    (ht : c.getintE "general" "low_battery_percentage" 20 = .ok t) :
    (get_power_status (.ok b) c = .ok "on_ac" ∨
      get_power_status (.ok b) c = .ok "on_battery" ∨
      get_power_status (.ok b) c = .ok "low_battery") ∧
    (∀ c' : IniConfig, get_power_status (.error ()) c' = .error ()) := by
  refine ⟨?_, fun c' => rfl⟩
  rw [probe_eq_spec_classify b c t ht]
  cases hcl : spec_classify b t <;> simp [SpecPowerState.toCode]

/-- Witness for C5's amended statement at a concrete input. -/
theorem c5_probe_amended_witness :
    (IniConfig.mk []).getintE "general" "low_battery_percentage" 20 = .ok 20 ∧
    (get_power_status (.ok (some ⟨true, 3⟩)) (IniConfig.mk []) = .ok "on_ac" ∨
      get_power_status (.ok (some ⟨true, 3⟩)) (IniConfig.mk []) = .ok "on_battery" ∨
      get_power_status (.ok (some ⟨true, 3⟩)) (IniConfig.mk []) = .ok "low_battery") ∧
    get_power_status (.error ()) (IniConfig.mk []) = .error () :=
  ⟨by decide, (c5_probe_amended (some ⟨true, 3⟩) (IniConfig.mk []) 20 (by decide)).1,
    (c5_probe_amended (some ⟨true, 3⟩) (IniConfig.mk []) 20 (by decide)).2 (IniConfig.mk [])⟩

/-- C6 (code bug evidence): on a detected transition with notifications
enabled, a notification command that runs and exits non-zero
(`CalledProcessError`, caught by the source) does not abort the
transition — the config is still written and the consumer restarted —
but a spawn-level failure of the notification call (`OSError`, e.g.
notify-send not installed, not caught by the source) propagates and
aborts the transition before the write and the restart. -/
theorem c6_notify_spawn_failure_aborts_transition :
    handle_power_change (.ok (some ⟨false, 50⟩)) .spawnFailure (IniConfig.mk [])
        true (some "on_ac") = ⟨some "on_battery", true, none, false, true⟩ ∧
    handle_power_change (.ok (some ⟨false, 50⟩)) .exitFailure (IniConfig.mk [])
        true (some "on_ac") =
      ⟨some "on_battery", true,
        some (generalBlock "hyprlock" "hyprctl dispatch dpms on"), true, false⟩ := by
  decide

/-- C7: rendering is pure and deterministic — repeated calls with the
same arguments return the same text, and the output depends only on the
observable content of the settings (two settings stores with identical
lookups render byte-identically). -/
theorem c7_render_deterministic (s : String) (c1 c2 : IniConfig)
    (h : ∀ sec key, c1.get? sec key = c2.get? sec key) :
    generate_hypridle_config s c1 = generate_hypridle_config s c2 ∧
    generate_hypridle_config s c1 = generate_hypridle_config s c1 := by
  refine ⟨?_, rfl⟩
  simp only [generate_hypridle_config, dimPart, dpmsPart, suspendPart, IniConfig.getD,
    IniConfig.getE, IniConfig.getintE, h]

/-- Witness for C7 at a concrete input. -/
theorem c7_render_witness :
    (∀ sec key,
      (IniConfig.mk [("general", "lock_command", "swaylock")]).get? sec key =
        (IniConfig.mk [("general", "lock_command", "swaylock")]).get? sec key) ∧
    generate_hypridle_config "on_ac" (IniConfig.mk [("general", "lock_command", "swaylock")]) =
      generate_hypridle_config "on_ac" (IniConfig.mk [("general", "lock_command", "swaylock")]) :=
  ⟨fun _ _ => rfl,
    (c7_render_deterministic "on_ac" (IniConfig.mk [("general", "lock_command", "swaylock")])
      (IniConfig.mk [("general", "lock_command", "swaylock")]) (fun _ _ => rfl)).1⟩

/-- C8 (code bug evidence): the daemon's settings reader (interpolation
disabled) returns a value containing a bare percent sign literally, but
the lid handler reads the very same settings file through the library's
default BasicInterpolation, so the same value raises an interpolation
error instead of being read literally, and a doubled percent sign is
silently rewritten rather than preserved. -/
theorem c8_lid_handler_interpolates :
    (IniConfig.mk [("lid_switch", "on_battery_command", "echo 50%")]).getD
        "lid_switch" "on_battery_command" "" = "echo 50%" ∧
    lid_config_get (IniConfig.mk [("lid_switch", "on_battery_command", "echo 50%")])
        "lid_switch" "on_battery_command" "" = .error () ∧
    get_lid_command "on_battery"
        (IniConfig.mk [("lid_switch", "on_battery_command", "echo 50%")]) = .error () ∧
    (IniConfig.mk [("lid_switch", "on_battery_command", "echo 50%%")]).getD
        "lid_switch" "on_battery_command" "" = "echo 50%%" ∧
    lid_config_get (IniConfig.mk [("lid_switch", "on_battery_command", "echo 50%%")])
        "lid_switch" "on_battery_command" "" = .ok "echo 50%" := by
  refine ⟨rfl, ?_, ?_, rfl, ?_⟩ <;>
    simp [lid_config_get, get_lid_command, IniConfig.get?, basic_interpolate, pyStrip]

/-- C9 counterexample: the daemon's main loop iteration (`while True:
time.sleep(1)`) performs no probe, no write and no restart even in a
situation where running the tick at that moment would detect a
transition and write the config — so transitions are not detected by any
timer-driven polling. -/
theorem c9_counterexample :
    main_keepalive_iteration (some "on_ac") = ⟨some "on_ac", false, none, false, false⟩ ∧
    (handle_power_change (.ok (some ⟨false, 50⟩)) .success (IniConfig.mk []) false
        (some "on_ac")).wrote = some (generalBlock "hyprlock" "hyprctl dispatch dpms on") := by
  decide

/-- C9 amended: the daemon has no periodic polling trigger — every main
loop iteration is a pure keep-alive that leaves the stored state
untouched and performs no write or restart; after the initial startup
tick, transitions are detected only by the udev hotplug subscription,
whose events with action change/add/remove invoke the tick and whose
other events do not. -/
theorem c9_amended (sensor : Except Unit (Option Battery)) (notify : NotifyResult)
    (c : IniConfig) (en : Bool) (last : Option String) :
    main_keepalive_iteration last = ⟨last, false, none, false, false⟩ ∧
    monitor_event_step "change" sensor notify c en last =
      handle_power_change sensor notify c en last ∧
    monitor_event_step "add" sensor notify c en last =
      handle_power_change sensor notify c en last ∧
    monitor_event_step "remove" sensor notify c en last =
      handle_power_change sensor notify c en last ∧
    monitor_event_step "bind" sensor notify c en last = ⟨last, false, none, false, false⟩ := by
  refine ⟨rfl, ?_, ?_, ?_, ?_⟩ <;> simp [monitor_event_step]

/-- C1: under a successful probe (state `s`), a successful render (text
`txt`) and a notification step that does not raise, a tick writes the
file and restarts the consumer if and only if the probed state differs
from the stored one; the initial unset state differs from every probed
state, so the very first tick always writes and restarts; and across any
nonempty run of consecutive ticks all probing `s` starting from the unset
state, the write-and-restart happens exactly once. -/
theorem c1_transition_iff (sensor : Except Unit (Option Battery)) (notify : NotifyResult)
    (c : IniConfig) (en : Bool) (s txt : String)
    (hs : get_power_status sensor c = .ok s)
    (hr : generate_hypridle_config s c = .ok txt)
    (hn : send_notification notify = .ok ()) :
    (∀ last, ((handle_power_change sensor notify c en last).wrote = some txt ∧
        (handle_power_change sensor notify c en last).restarted = true) ↔ some s ≠ last) ∧
    ((handle_power_change sensor notify c en none).wrote = some txt ∧
      (handle_power_change sensor notify c en none).restarted = true) ∧
    (∀ sensors : List (Except Unit (Option Battery)), sensors ≠ [] →
      (∀ x ∈ sensors, get_power_status x c = .ok s) →
      restartCount notify c en sensors none = 1) := by
  have hfirst : ∀ last, some s ≠ last →
      handle_power_change sensor notify c en last = ⟨some s, en, some txt, true, false⟩ :=
    fun last hne => handle_change sensor notify c en s txt last hs hn hr hne
  refine ⟨?_, ?_, ?_⟩
  · intro last
    constructor
    · rintro ⟨hw, _⟩ heq
      subst heq
      rw [handle_same sensor notify c en s hs] at hw
      simp at hw
    · intro hne
      rw [hfirst last hne]
      exact ⟨rfl, rfl⟩
  · rw [hfirst none (by simp)]
    exact ⟨rfl, rfl⟩
  · intro sensors hne hall
    cases sensors with
    | nil => exact absurd rfl hne
    | cons x rest =>
      have hx : get_power_status x c = .ok s := hall x (List.mem_cons_self x rest)
      have hchange := handle_change x notify c en s txt none hx hn hr (by simp)
      simp only [restartCount, hchange]
      have hrest := restartCount_same notify c en s rest
        (fun y hy => hall y (List.mem_cons_of_mem x hy))
      simp [hrest]

/-- Witness for C1 at a concrete input: an empty settings file, a sensor
with no battery (probing on_ac three times in a row), starting from the
unset state — exactly one restart happens. -/
theorem c1_transition_witness :
    get_power_status (.ok none) (IniConfig.mk []) = .ok "on_ac" ∧
    generate_hypridle_config "on_ac" (IniConfig.mk []) =
      .ok (generalBlock "hyprlock" "hyprctl dispatch dpms on") ∧
    send_notification .success = .ok () ∧
    restartCount .success (IniConfig.mk []) true [.ok none, .ok none, .ok none] none = 1 :=
  ⟨by decide, by decide, rfl,
    (c1_transition_iff (.ok none) .success (IniConfig.mk []) true "on_ac"
        (generalBlock "hyprlock" "hyprctl dispatch dpms on") (by decide) (by decide) rfl).2.2
      [.ok none, .ok none, .ok none] (by simp) (by decide)⟩

/-- The dim listener block is never the empty string. -/
theorem dimBlockText_ne_empty (t : Int) (cmd r : String) : dimBlockText t cmd r ≠ "" := by
  intro hemp
  have hl := congrArg String.length hemp
  simp only [dimBlockText, String.length_append, String.length_empty] at hl
  have h0 : 0 < ("\n\nlistener \x7b\n    timeout = " : String).length := by decide
  omega

/-- The lock listener block is never the empty string. -/
theorem lockBlockText_ne_empty (t : Int) (cmd : String) : lockBlockText t cmd ≠ "" := by
  intro hemp
  have hl := congrArg String.length hemp
  simp only [lockBlockText, String.length_append, String.length_empty] at hl
  have h0 : 0 < ("\n\nlistener \x7b\n    timeout = " : String).length := by decide
  omega

/-- The DPMS-off listener block is never the empty string. -/
theorem dpmsBlockText_ne_empty (t : Int) (cmd d : String) : dpmsBlockText t cmd d ≠ "" := by
  intro hemp
  have hl := congrArg String.length hemp
  simp only [dpmsBlockText, String.length_append, String.length_empty] at hl
  have h0 : 0 < ("\n\nlistener \x7b\n    timeout = " : String).length := by decide
  omega

/-- The suspend listener block is never the empty string. -/
theorem suspendBlockText_ne_empty (t : Int) (cmd : String) : suspendBlockText t cmd ≠ "" := by
  intro hemp
  have hl := congrArg String.length hemp
  simp only [suspendBlockText, String.length_append, String.length_empty] at hl
  have h0 : 0 < ("\n\nlistener \x7b\n    timeout = " : String).length := by decide
  omega

/-- C3: when every positive-timeout listener also has its required
command present, the rendered text is the general block followed by the
dim, lock, DPMS-off and suspend listener blocks in that fixed order, each
(nonempty) block present if and only if its timeout is a positive integer
(absent or non-positive means omitted), and each block's content depends
only on that listener's own settings, so the presence or absence of one
listener's settings does not affect the emission of the others. -/
theorem c3_listener_blocks (c : IniConfig) (ps : String) (t1 t2 t3 t4 : Int)
    (dcmd ocmd scmd : String)
    (h1 : c.getintE ps "dim_timeout" 0 = .ok t1)
    (h2 : c.getintE ps "lock_timeout" 0 = .ok t2)
    (h3 : c.getintE ps "dpms_off_timeout" 0 = .ok t3)
    (h4 : c.getintE ps "suspend_timeout" 0 = .ok t4)
    (hd : 0 < t1 → c.getE ps "dim_command" = .ok dcmd)
    (ho : 0 < t3 → c.getE ps "dpms_off_command" = .ok ocmd)
    (hsu : 0 < t4 → c.getE ps "suspend_command" = .ok scmd) :
    generate_hypridle_config ps c = .ok
      (generalBlock (c.getD "general" "lock_command" "hyprlock")
          (c.getD ps "dpms_on_command" "hyprctl dispatch dpms on") ++
        (if 0 < t1 then dimBlockText t1 dcmd (c.getD ps "dim_resume_command" "") else "") ++
        (if 0 < t2 then lockBlockText t2 (c.getD "general" "lock_command" "hyprlock") else "") ++
        (if 0 < t3 then
          dpmsBlockText t3 ocmd (c.getD ps "dpms_on_command" "hyprctl dispatch dpms on")
        else "") ++
        (if 0 < t4 then suspendBlockText t4 scmd else "")) ∧
    dimBlockText t1 dcmd (c.getD ps "dim_resume_command" "") ≠ "" ∧
    lockBlockText t2 (c.getD "general" "lock_command" "hyprlock") ≠ "" ∧
    dpmsBlockText t3 ocmd (c.getD ps "dpms_on_command" "hyprctl dispatch dpms on") ≠ "" ∧
    suspendBlockText t4 scmd ≠ "" := by
  refine ⟨?_, dimBlockText_ne_empty t1 dcmd _, lockBlockText_ne_empty t2 _,
    dpmsBlockText_ne_empty t3 ocmd _, suspendBlockText_ne_empty t4 scmd⟩
  simp only [generate_hypridle_config, h1, h2, h3, h4, dimPart, dpmsPart, suspendPart]
  by_cases p1 : 0 < t1 <;> by_cases p2 : 0 < t2 <;> by_cases p3 : 0 < t3 <;>
    by_cases p4 : 0 < t4 <;> simp [p1, p2, p3, p4, hd, ho, hsu]

/-- Witness for C3 at a concrete input: dim (30s) and suspend (600s)
listeners enabled with their commands present, lock and DPMS timeouts
absent — the rendered text has exactly the dim and suspend blocks, in
order. -/
theorem c3_listener_witness :
    (IniConfig.mk [("low_battery", "dim_timeout", "30"),
        ("low_battery", "dim_command", "brightnessctl set 10"),
        ("low_battery", "suspend_timeout", "600"),
        ("low_battery", "suspend_command", "systemctl suspend")]).getintE
      "low_battery" "dim_timeout" 0 = .ok 30 ∧
    (IniConfig.mk [("low_battery", "dim_timeout", "30"),
        ("low_battery", "dim_command", "brightnessctl set 10"),
        ("low_battery", "suspend_timeout", "600"),
        ("low_battery", "suspend_command", "systemctl suspend")]).getintE
      "low_battery" "lock_timeout" 0 = .ok 0 ∧
    generate_hypridle_config "low_battery"
        (IniConfig.mk [("low_battery", "dim_timeout", "30"),
          ("low_battery", "dim_command", "brightnessctl set 10"),
          ("low_battery", "suspend_timeout", "600"),
          ("low_battery", "suspend_command", "systemctl suspend")]) = .ok
      (generalBlock "hyprlock" "hyprctl dispatch dpms on" ++
        dimBlockText 30 "brightnessctl set 10" "" ++ "" ++ "" ++
        suspendBlockText 600 "systemctl suspend") := by
  refine ⟨by decide, by decide, ?_⟩
  have h := (c3_listener_blocks
    (IniConfig.mk [("low_battery", "dim_timeout", "30"),
      ("low_battery", "dim_command", "brightnessctl set 10"),
      ("low_battery", "suspend_timeout", "600"),
      ("low_battery", "suspend_command", "systemctl suspend")])
    "low_battery" 30 0 0 600 "brightnessctl set 10" "x" "systemctl suspend"
    (by decide) (by decide) (by decide) (by decide)
    (fun _ => by decide) (fun hc => absurd hc (by decide))
    (fun _ => by decide)).1
  rw [h]
  norm_num
  rfl

/-- C4: when some listener's timeout is a positive integer but its
required command key (dim_command, dpms_off_command or suspend_command)
is missing, rendering fails with an error instead of producing text, and
any tick probing that power state performs no write and no restart,
leaving the previous file and consumer process untouched. -/
theorem c4_missing_command_aborts (c : IniConfig) (ps : String) (t1 t2 t3 t4 : Int)
    (h1 : c.getintE ps "dim_timeout" 0 = .ok t1)
    (h2 : c.getintE ps "lock_timeout" 0 = .ok t2)
    (h3 : c.getintE ps "dpms_off_timeout" 0 = .ok t3)
    (h4 : c.getintE ps "suspend_timeout" 0 = .ok t4)
    (hmiss : (0 < t1 ∧ c.get? ps "dim_command" = none) ∨
      (0 < t3 ∧ c.get? ps "dpms_off_command" = none) ∨
      (0 < t4 ∧ c.get? ps "suspend_command" = none)) :
    generate_hypridle_config ps c = .error () ∧
    ∀ (sensor : Except Unit (Option Battery)) (notify : NotifyResult) (en : Bool)
      (last : Option String), get_power_status sensor c = .ok ps →
      (handle_power_change sensor notify c en last).wrote = none ∧
      (handle_power_change sensor notify c en last).restarted = false := by
  have hgen : generate_hypridle_config ps c = .error () := by
    rcases hmiss with ⟨hp, hm⟩ | ⟨hp, hm⟩ | ⟨hp, hm⟩
    · simp [generate_hypridle_config, h1, dimPart, hp, IniConfig.getE, hm]
    · cases hdp : dimPart ps c t1 with
      | error e =>
        cases e
        simp [generate_hypridle_config, h1, hdp]
      | ok d =>
        simp [generate_hypridle_config, h1, hdp, h2, h3, dpmsPart, hp, IniConfig.getE, hm]
    · cases hdp : dimPart ps c t1 with
      | error e =>
        cases e
        simp [generate_hypridle_config, h1, hdp]
      | ok d =>
        cases hop : dpmsPart ps c (c.getD ps "dpms_on_command" "hyprctl dispatch dpms on") t3 with
        | error e =>
          cases e
          simp [generate_hypridle_config, h1, hdp, h2, h3, hop]
        | ok o =>
          simp [generate_hypridle_config, h1, hdp, h2, h3, hop, h4, suspendPart, hp,
            IniConfig.getE, hm]
  refine ⟨hgen, ?_⟩
  intro sensor notify en last hs
  by_cases hl : some ps = last
  · rw [← hl, handle_same sensor notify c en ps hs]
    exact ⟨rfl, rfl⟩
  · simp only [handle_power_change, hs]
    rw [if_neg hl]
    cases hns : (if en then send_notification notify else Except.ok ()) with
    | error e => exact ⟨rfl, rfl⟩
    | ok u => simp [hgen]

/-- Witness for C4 at a concrete input: `dim_timeout=30` with
`dim_command` absent — the render fails and a tick that detects a
transition into that state writes and restarts nothing. -/
theorem c4_missing_command_witness :
    (IniConfig.mk [("on_battery", "dim_timeout", "30")]).getintE
      "on_battery" "dim_timeout" 0 = .ok 30 ∧
    ((0 : Int) < 30 ∧
      (IniConfig.mk [("on_battery", "dim_timeout", "30")]).get?
        "on_battery" "dim_command" = none) ∧
    get_power_status (.ok (some ⟨false, 50⟩))
      (IniConfig.mk [("on_battery", "dim_timeout", "30")]) = .ok "on_battery" ∧
    generate_hypridle_config "on_battery"
      (IniConfig.mk [("on_battery", "dim_timeout", "30")]) = .error () ∧
    (handle_power_change (.ok (some ⟨false, 50⟩)) .success
      (IniConfig.mk [("on_battery", "dim_timeout", "30")]) true none).wrote = none ∧
    (handle_power_change (.ok (some ⟨false, 50⟩)) .success
      (IniConfig.mk [("on_battery", "dim_timeout", "30")]) true none).restarted = false := by
  have h := c4_missing_command_aborts (IniConfig.mk [("on_battery", "dim_timeout", "30")])
    "on_battery" 30 0 0 0 (by decide) (by decide) (by decide) (by decide)
    (Or.inl ⟨by decide, by decide⟩)
  exact ⟨by decide, ⟨by decide, by decide⟩, by decide, h.1,
    (h.2 (.ok (some ⟨false, 50⟩)) .success true none (by decide)).1,
    (h.2 (.ok (some ⟨false, 50⟩)) .success true none (by decide)).2⟩

/-- C10: when a tick detects a transition to state `s` (notification step
not raising) and rendering `s` raises, the stored state has already been
set to `s` and the notification already emitted when the failure happens;
no write and no restart occur on that tick, and every subsequent tick
probing the same state `s` is a complete no-op, so the missed write and
restart are never retried while the state is unchanged. -/
theorem c10_state_recorded_before_render (sensor : Except Unit (Option Battery))
    (notify : NotifyResult) (c : IniConfig) (en : Bool) (s : String) (last : Option String)
    (hs : get_power_status sensor c = .ok s)
    (hn : send_notification notify = .ok ())
    (hre : generate_hypridle_config s c = .error ())
    (hne : some s ≠ last) :
    handle_power_change sensor notify c en last = ⟨some s, en, none, false, true⟩ ∧
    handle_power_change sensor notify c en (some s) = ⟨some s, false, none, false, false⟩ ∧
    (∀ sensors : List (Except Unit (Option Battery)),
      (∀ x ∈ sensors, get_power_status x c = .ok s) →
      restartCount notify c en sensors (some s) = 0) :=
  ⟨handle_render_error sensor notify c en s last hs hn hre hne,
    handle_same sensor notify c en s hs,
    fun sensors hall => restartCount_same notify c en s sensors hall⟩

/-- Witness for C10 at a concrete input: transition from on_ac to
on_battery whose render fails because `dim_command` is missing. -/
theorem c10_state_witness :
    get_power_status (.ok (some ⟨false, 50⟩))
      (IniConfig.mk [("on_battery", "dim_timeout", "30")]) = .ok "on_battery" ∧
    generate_hypridle_config "on_battery"
      (IniConfig.mk [("on_battery", "dim_timeout", "30")]) = .error () ∧
    handle_power_change (.ok (some ⟨false, 50⟩)) .success
        (IniConfig.mk [("on_battery", "dim_timeout", "30")]) true (some "on_ac") =
      ⟨some "on_battery", true, none, false, true⟩ ∧
    handle_power_change (.ok (some ⟨false, 50⟩)) .success
        (IniConfig.mk [("on_battery", "dim_timeout", "30")]) true (some "on_battery") =
      ⟨some "on_battery", false, none, false, false⟩ ∧
    restartCount .success (IniConfig.mk [("on_battery", "dim_timeout", "30")]) true
      [.ok (some ⟨false, 50⟩), .ok (some ⟨false, 50⟩)] (some "on_battery") = 0 := by
  have h := c10_state_recorded_before_render (.ok (some ⟨false, 50⟩)) .success
    (IniConfig.mk [("on_battery", "dim_timeout", "30")]) true "on_battery" (some "on_ac")
    (by decide) rfl (by decide) (by decide)
  exact ⟨by decide, by decide, h.1, h.2.1,
    h.2.2 [.ok (some ⟨false, 50⟩), .ok (some ⟨false, 50⟩)] (by decide)⟩
